import Mathlib

/-!
Verification of the core analysis-and-decision engine of the `monitoramento`
repository: the alert rate limiter and decision layer
(`src/core/alert_manager.py`), the data-quality metrics engine
(`src/core/data_quality.py`), and the statistical anomaly detector
(`src/core/detector_anomalias.py`).

The Python code is shallowly embedded: time stamps (`datetime`) become
rationals measured in minutes, pandas dataframes become explicit lists of
typed columns, Python floats become exact rationals, mutation of instance
state becomes explicit state passing, and Python `set`s of row indices
become `Finset ℕ`.
-/

namespace Monitoramento

/-- Pointwise update of a function out of `String`, used to embed Python
dictionary assignment `d[k] = v`. -/
def upd {α : Type} (f : String → α) (k : String) (v : α) : String → α :=
  fun k' => if k' = k then v else f k'

@[simp]
theorem upd_self {α : Type} (f : String → α) (k : String) (v : α) :
    upd f k v k = v := by
  simp [upd]

@[simp]
theorem upd_upd {α : Type} (f : String → α) (k : String) (a b : α) :
    upd (upd f k a) k b = upd f k b := by
  funext k'
  by_cases h : k' = k <;> simp [upd, h]

/-! ## Alert manager (`src/core/alert_manager.py`) -/

/-- Embeds the `AlertSeverity` enum. -/
inductive AlertSeverity
  | info
  | warning
  | error
  | critical
deriving DecidableEq

/-- Embeds the `Alert` dataclass.  The `timestamp` and `metadata` fields play
no role in the verified claims and are omitted. -/
structure Alert where
  severity : AlertSeverity
  title : String
  message : String
  source : String
  metric_name : Option String := none
  metric_value : Option ℚ := none
  threshold : Option ℚ := none

/-- Embeds the mutable state of an `AlertRateLimiter` instance.
`alert_history` is the `defaultdict(list)` of per-key emission time stamps
(in minutes); `cooldown_until` is the per-key cooldown-expiry dictionary,
with `none` embedding absence of the key. -/
structure AlertRateLimiter where
  max_alerts_per_hour : ℕ
  cooldown_minutes : ℚ
  alert_history : String → List ℚ
  cooldown_until : String → Option ℚ

/-- Result of `AlertRateLimiter.can_send_alert`: the returned pair
`(pode_enviar, motivo)` together with the state of the limiter after the
call (the Python method mutates `self`). -/
structure SendResult where
  allowed : Bool
  reason : String
  state : AlertRateLimiter

/-- Embeds the part of `can_send_alert` after the cooldown check: prune the
key's history to the last 60 minutes, deny and start a cooldown when the
pruned count has reached `max_alerts_per_hour`, otherwise record `now` and
allow.  The `remaining`-minutes interpolation in the Python denial message is
not reproduced; the reason strings are otherwise those of the source. -/
def prune_and_decide (rl : AlertRateLimiter) (alert_key : String) (now : ℚ) :
    SendResult :=
  let pruned := (rl.alert_history alert_key).filter (fun ts => decide (now - 60 < ts))
  if rl.max_alerts_per_hour ≤ pruned.length then
    ⟨false, "Limite de alertas por hora atingido",
      { rl with
          alert_history := upd rl.alert_history alert_key pruned,
          cooldown_until := upd rl.cooldown_until alert_key
            (some (now + rl.cooldown_minutes)) }⟩
  else
    ⟨true, "OK",
      { rl with
          alert_history := upd rl.alert_history alert_key (pruned ++ [now]) }⟩

/-- Embeds `AlertRateLimiter.can_send_alert`.  `now` stands for the
`datetime.now()` reading, in minutes.  An unexpired cooldown denies at once
without touching the history; an expired cooldown entry is deleted and the
call proceeds to pruning. -/
def can_send_alert (rl : AlertRateLimiter) (alert_key : String) (now : ℚ) :
    SendResult :=
  match rl.cooldown_until alert_key with
  | some t =>
      if now < t then
        ⟨false, "Em cooldown", rl⟩
      else
        prune_and_decide
          { rl with cooldown_until := upd rl.cooldown_until alert_key none }
          alert_key now
  | none => prune_and_decide rl alert_key now

/-- Embeds the state of an `AlertManager`: its alert history and its optional
rate limiter (`None` when rate limiting is disabled). -/
structure AlertManager where
  alerts : List Alert
  rate_limiter : Option AlertRateLimiter

/-- Result of `AlertManager.should_send_alert`, with the post-call manager
state. -/
structure ManagerSendResult where
  allowed : Bool
  reason : String
  manager : AlertManager

/-- Embeds the key expression `f"{alert.source}:{alert.metric_name or alert.title}"`;
Python's `or` falls through to `title` when `metric_name` is `None` or the
empty string. -/
def alert_key_of (a : Alert) : String :=
  a.source ++ ":" ++
    (match a.metric_name with
     | some s => if s = "" then a.title else s
     | none => a.title)

/-- Embeds `AlertManager.should_send_alert`: allow when rate limiting is
disabled, allow CRITICAL alerts without consulting the limiter, otherwise
delegate to `can_send_alert`. -/
def should_send_alert (m : AlertManager) (a : Alert) (now : ℚ) :
    ManagerSendResult :=
  match m.rate_limiter with
  | none => ⟨true, "Rate limiting desabilitado", m⟩
  | some rl =>
      if a.severity = AlertSeverity.critical then
        ⟨true, "Alerta critico - bypass rate limiting", m⟩
      else
        let r := can_send_alert rl (alert_key_of a) now
        ⟨r.allowed, r.reason, { m with rate_limiter := some r.state }⟩

/-- Runs `can_send_alert` for a fixed key at each time stamp of a list in
order, threading the limiter state, and collects the returned `allowed`
flags together with the final state. -/
def run_calls (rl : AlertRateLimiter) (k : String) :
    List ℚ → List Bool × AlertRateLimiter
  | [] => ([], rl)
  | t :: ts =>
      let r := can_send_alert rl k t
      let p := run_calls r.state k ts
      (r.allowed :: p.1, p.2)

/-- A fresh limiter with `max_alerts_per_hour = 3`, `cooldown_minutes = 30`,
empty history and no cooldowns, used as concrete witness input. -/
def rlW : AlertRateLimiter :=
  ⟨3, 30, fun _ => [], fun _ => none⟩

/-- A limiter with `max_alerts_per_hour = 0`, which denies every call: a
concrete input on which `can_send_alert` returns `allowed = false`. -/
def rlDeny : AlertRateLimiter :=
  ⟨0, 30, fun _ => [], fun _ => none⟩

/-- C2: for every `Alert` with severity CRITICAL, `should_send_alert` returns
`allowed = true` regardless of the rate limiter's state; and with rate
limiting disabled (`rate_limiter = none`) every alert is allowed. -/
theorem C2_critical_always_allowed (m : AlertManager) (a : Alert) (now : ℚ) :
    (a.severity = AlertSeverity.critical →
      (should_send_alert m a now).allowed = true)
    ∧ (m.rate_limiter = none → (should_send_alert m a now).allowed = true) := by
  constructor
  · intro h
    cases hrl : m.rate_limiter with
    | none => simp [should_send_alert, hrl]
    | some rl => simp [should_send_alert, hrl, h]
  · intro h
    simp [should_send_alert, h]

/-- Witness for C2 at a concrete CRITICAL alert and a concrete manager. -/
theorem C2_witness :
    (should_send_alert ⟨[], some rlW⟩
      ⟨AlertSeverity.critical, "t", "m", "s", none, none, none⟩ 0).allowed
      = true :=
  (C2_critical_always_allowed ⟨[], some rlW⟩
    ⟨AlertSeverity.critical, "t", "m", "s", none, none, none⟩ 0).1 rfl

/-- C9: a call to `should_send_alert` with a CRITICAL alert leaves the
manager — in particular the rate limiter's per-key history and cooldown
state — entirely unchanged. -/
theorem C9_critical_leaves_state_unchanged (m : AlertManager) (a : Alert)
    (now : ℚ) (h : a.severity = AlertSeverity.critical) :
    (should_send_alert m a now).manager = m := by
  cases hrl : m.rate_limiter with
  | none => simp [should_send_alert, hrl]
  | some rl => simp [should_send_alert, hrl, h]

/-- Witness for C9 at a concrete CRITICAL alert and a concrete manager. -/
theorem C9_witness :
    (should_send_alert ⟨[], some rlW⟩
      ⟨AlertSeverity.critical, "t", "m", "s", none, none, none⟩ 0).manager
      = ⟨[], some rlW⟩ :=
  C9_critical_leaves_state_unchanged ⟨[], some rlW⟩
    ⟨AlertSeverity.critical, "t", "m", "s", none, none, none⟩ 0 rfl

/-- Unfolding lemma for `can_send_alert` when the key has no cooldown
entry. -/
theorem can_send_alert_cooldown_none (rl : AlertRateLimiter) (k : String)
    (now : ℚ) (hc : rl.cooldown_until k = none) :
    can_send_alert rl k now = prune_and_decide rl k now := by
  unfold can_send_alert
  rw [hc]

/-- Unfolding lemma for `can_send_alert` when the key has a cooldown
entry. -/
theorem can_send_alert_cooldown_some (rl : AlertRateLimiter) (k : String)
    (now t : ℚ) (hc : rl.cooldown_until k = some t) :
    can_send_alert rl k now =
      if now < t then ⟨false, "Em cooldown", rl⟩
      else
        prune_and_decide
          { rl with cooldown_until := upd rl.cooldown_until k none } k now := by
  unfold can_send_alert
  rw [hc]

/-- When `prune_and_decide` denies, the key's stored history is the pruned
(filtered) list, a sublist of the history before the call. -/
theorem prune_and_decide_denied_sublist (rl : AlertRateLimiter) (k : String)
    (now : ℚ) (h : (prune_and_decide rl k now).allowed = false) :
    ((prune_and_decide rl k now).state.alert_history k).Sublist
      (rl.alert_history k) := by
  by_cases hc : rl.max_alerts_per_hour ≤
      ((rl.alert_history k).filter (fun ts => decide (now - 60 < ts))).length
  · simp only [prune_and_decide, if_pos hc, upd_self]
    exact List.filter_sublist _
  · simp only [prune_and_decide, if_neg hc] at h
    cases h

/-- C10: whenever `can_send_alert` returns `allowed = false`, no new emission
time stamp is appended for the key: the key's history after the call is a
sublist of (and hence contains only time stamps of) the history before the
call. -/
theorem C10_denied_call_appends_nothing (rl : AlertRateLimiter) (k : String)
    (now : ℚ) (h : (can_send_alert rl k now).allowed = false) :
    ((can_send_alert rl k now).state.alert_history k).Sublist
      (rl.alert_history k) := by
  cases hc : rl.cooldown_until k with
  | some t =>
      rw [can_send_alert_cooldown_some rl k now t hc] at h ⊢
      by_cases hlt : now < t
      · simp only [if_pos hlt]
        exact List.Sublist.refl _
      · simp only [if_neg hlt] at h ⊢
        exact prune_and_decide_denied_sublist _ k now h
  | none =>
      rw [can_send_alert_cooldown_none rl k now hc] at h ⊢
      exact prune_and_decide_denied_sublist rl k now h

/-- Witness for C10: a limiter with a zero hourly cap denies a concrete call
and its history stays a sublist of what it was. -/
theorem C10_witness :
    ((can_send_alert rlDeny "a" 0).state.alert_history "a").Sublist
      (rlDeny.alert_history "a") :=
  C10_denied_call_appends_nothing rlDeny "a" 0 rfl

/-- C1: with `max_alerts_per_hour = 3` and a fresh key, three calls within
one hour are allowed, the fourth call within that hour is denied and starts
a cooldown of `cooldown_minutes`, and a later call made after the cooldown
expired and all three recorded time stamps are over an hour old is allowed
again. -/
theorem C1_rate_limit_cycle (rl0 : AlertRateLimiter) (k : String)
    (cd t1 t2 t3 t4 t5 : ℚ)
    (hmax : rl0.max_alerts_per_hour = 3)
    (hcd : rl0.cooldown_minutes = cd)
    (hhist : rl0.alert_history k = [])
    (hcool : rl0.cooldown_until k = none)
    (h12 : t1 ≤ t2) (h23 : t2 ≤ t3) (h34 : t3 ≤ t4)
    (hhour : t4 < t1 + 60)
    (h5cd : t4 + cd ≤ t5)
    (h5hist : t3 + 60 ≤ t5) :
    (run_calls rl0 k [t1, t2, t3, t4, t5]).1 = [true, true, true, false, true]
    ∧ (run_calls rl0 k [t1, t2, t3, t4]).2.cooldown_until k
        = some (t4 + cd) := by
  have d21 : decide (t2 - 60 < t1) = true := decide_eq_true (by linarith)
  have d31 : decide (t3 - 60 < t1) = true := decide_eq_true (by linarith)
  have d32 : decide (t3 - 60 < t2) = true := decide_eq_true (by linarith)
  have d41 : decide (t4 - 60 < t1) = true := decide_eq_true (by linarith)
  have d42 : decide (t4 - 60 < t2) = true := decide_eq_true (by linarith)
  have d43 : decide (t4 - 60 < t3) = true := decide_eq_true (by linarith)
  have d51 : decide (t5 - 60 < t1) = false := decide_eq_false (by linarith)
  have d52 : decide (t5 - 60 < t2) = false := decide_eq_false (by linarith)
  have d53 : decide (t5 - 60 < t3) = false := decide_eq_false (by linarith)
  have hnlt : ¬ t5 < t4 + cd := by linarith
  have e1 : can_send_alert rl0 k t1 =
      ⟨true, "OK",
        { rl0 with alert_history := upd rl0.alert_history k [t1] }⟩ := by
    rw [can_send_alert_cooldown_none rl0 k t1 hcool]
    simp [prune_and_decide, hhist, hmax]
  have e2 : can_send_alert
      { rl0 with alert_history := upd rl0.alert_history k [t1] } k t2 =
      ⟨true, "OK",
        { rl0 with alert_history := upd rl0.alert_history k [t1, t2] }⟩ := by
    have h := can_send_alert_cooldown_none { rl0 with alert_history := upd rl0.alert_history k [t1] } k t2 hcool
    rw [h]
    simp [prune_and_decide, hmax, List.filter, d21]
  have e3 : can_send_alert
      { rl0 with alert_history := upd rl0.alert_history k [t1, t2] } k t3 =
      ⟨true, "OK",
        { rl0 with alert_history := upd rl0.alert_history k [t1, t2, t3] }⟩ := by
    have h := can_send_alert_cooldown_none { rl0 with alert_history := upd rl0.alert_history k [t1, t2] } k t3 hcool
    rw [h]
    simp [prune_and_decide, hmax, List.filter, d31, d32]
  have e4 : can_send_alert
      { rl0 with alert_history := upd rl0.alert_history k [t1, t2, t3] }
        k t4 =
      ⟨false, "Limite de alertas por hora atingido",
        { rl0 with alert_history := upd rl0.alert_history k [t1, t2, t3], cooldown_until := upd rl0.cooldown_until k (some (t4 + cd)) }⟩ := by
    have h := can_send_alert_cooldown_none { rl0 with alert_history := upd rl0.alert_history k [t1, t2, t3] } k t4 hcool
    rw [h]
    simp [prune_and_decide, hmax, hcd, List.filter, d41, d42, d43]
  have e5 : (can_send_alert
      { rl0 with alert_history := upd rl0.alert_history k [t1, t2, t3], cooldown_until := upd rl0.cooldown_until k (some (t4 + cd)) }
      k t5).allowed = true := by
    have h := can_send_alert_cooldown_some
      { rl0 with alert_history := upd rl0.alert_history k [t1, t2, t3], cooldown_until := upd rl0.cooldown_until k (some (t4 + cd)) }
      k t5 (t4 + cd) (upd_self _ _ _)
    rw [h, if_neg hnlt]
    simp [prune_and_decide, hmax, List.filter, d51, d52, d53]
  refine ⟨?_, ?_⟩
  · simp only [run_calls, e1, e2, e3, e4]
    simp [e5]
  · simp only [run_calls, e1, e2, e3, e4]
    simp

/-- Witness for C1: a fresh limiter with cap 3 and cooldown 30, calls at
minutes 0, 1, 2, 3 and 62. -/
theorem C1_witness :
    (run_calls rlW "a" [0, 1, 2, 3, 62]).1 = [true, true, true, false, true]
    ∧ (run_calls rlW "a" [0, 1, 2, 3]).2.cooldown_until "a"
        = some ((3 : ℚ) + 30) :=
  C1_rate_limit_cycle rlW "a" 30 0 1 2 3 62 rfl rfl rfl rfl
    (by norm_num) (by norm_num) (by norm_num) (by norm_num)
    (by norm_num) (by norm_num)

/-! ## Tabular data model

A pandas `DataFrame` is embedded as a list of named, typed columns.  A cell
is a rational number, a string, or null (`None`/`NaN`).  A column's pandas
dtype is embedded as `numeric` or `object`; `select_dtypes(include=[np.number])`
becomes a filter on that tag. -/

/-- A single cell of a dataframe. -/
inductive Cell
  | num (q : ℚ)
  | text (s : String)
  | null
deriving DecidableEq

/-- The pandas dtype of a column, as far as the core code inspects it. -/
inductive DType
  | numeric
  | object
deriving DecidableEq

/-- A named dataframe column. -/
structure Column where
  name : String
  dtype : DType
  cells : List Cell
deriving DecidableEq

/-- A dataframe: `nrows` embeds `len(df)`; every column of a well-formed
frame has `nrows` cells. -/
structure DataFrame where
  nrows : ℕ
  cols : List Column
deriving DecidableEq

/-- Embeds `df.select_dtypes(include=[np.number]).columns`. -/
def DataFrame.numericCols (df : DataFrame) : List Column :=
  df.cols.filter (fun c => decide (c.dtype = DType.numeric))

/-- Embeds `df.select_dtypes(include=['object']).columns`. -/
def DataFrame.objectCols (df : DataFrame) : List Column :=
  df.cols.filter (fun c => decide (c.dtype = DType.object))

/-- Embeds column access `df[name]`; `none` embeds a `KeyError`. -/
def getCol (df : DataFrame) (name : String) : Option Column :=
  df.cols.find? (fun c => decide (c.name = name))

/-- Embeds `series.count()`: the number of non-null cells. -/
def Column.nonNullCount (c : Column) : ℕ :=
  (c.cells.filter (fun x => decide (x ≠ Cell.null))).length

/-- The non-null numeric values of a column, in order (pandas numeric
reductions such as `mean`/`std` skip NaN). -/
def Column.numVals (c : Column) : List ℚ :=
  c.cells.filterMap (fun x => match x with | Cell.num q => some q | _ => none)

/-- The non-null numeric values of a column, each paired with its row
index. -/
def Column.numValsIdx (c : Column) : List (ℕ × ℚ) :=
  c.cells.enum.filterMap
    (fun p => match p.2 with | Cell.num q => some (p.1, q) | _ => none)

/-- Embeds `series.mean()` over the non-null values.  Pandas returns NaN on
an all-null column; the stand-in value 0 is never observable because every
use site only compares values that exist in the column. -/
def Column.mean (c : Column) : ℚ :=
  let vs := c.numVals
  if vs.length = 0 then 0 else vs.sum / vs.length

/-- Embeds the square of `series.std()` (pandas sample variance, `ddof=1`)
over the non-null values.  Pandas yields NaN for fewer than two values; NaN
compares false against every bound, so no row is ever flagged through such a
column, and modelling that case as variance 0 (which the callers skip or
which flags nothing, as all values are then equal) preserves every caller's
observable output. -/
def Column.sampleVar (c : Column) : ℚ :=
  let vs := c.numVals
  if vs.length ≤ 1 then 0
  else (vs.map (fun v => (v - c.mean) ^ 2)).sum / ((vs.length : ℚ) - 1)

/-- Embeds Python's `round(x, 2)` on exact rationals. -/
def round2 (q : ℚ) : ℚ :=
  ((round (q * 100) : ℤ) : ℚ) / 100

/-! ## Data-quality metrics (`src/core/data_quality.py`) -/

/-- The error taxonomy named by the specification.  The `Except` wrapper on
`calculate_completeness` makes raising representable in the embedding; the
source file defines no such exception class and never raises it. -/
inductive DQError
  | emptyDatasetError
deriving DecidableEq

/-- Result of `calculate_completeness`; `none` embeds the float NaN that
NumPy division produces when the denominator is 0. -/
structure CompletenessResult where
  overall : Option ℚ
  by_column : List (String × Option ℚ)
deriving DecidableEq

/-- Embeds `DataQualityMetrics.calculate_completeness`.  On a dataframe with
zero cells the NumPy quotient `non_null_cells / total_cells` is NaN (with a
runtime warning, not an exception), embedded as `none`; the function always
returns normally. -/
def calculate_completeness (df : DataFrame) :
    Except DQError CompletenessResult :=
  let total_cells := df.nrows * df.cols.length
  let non_null_cells := (df.cols.map Column.nonNullCount).sum
  let overall :=
    if total_cells = 0 then none
    else some (round2 ((non_null_cells : ℚ) / (total_cells : ℚ) * 100))
  let by_column := df.cols.map (fun c =>
    (c.name,
      if df.nrows = 0 then none
      else some (round2 ((c.nonNullCount : ℚ) / (df.nrows : ℚ) * 100))))
  Except.ok ⟨overall, by_column⟩

/-- A validation rule as `calculate_validity` consumes it: a name and a
callable on the dataframe.  The callable's `some` result embeds the mask sum
`valid.sum() if isinstance(valid, pd.Series) else valid` (the count of
passing rows); `none` embeds the callable raising an exception. -/
abbrev ValidationRule := String × (DataFrame → Option ℚ)

/-- Embeds `np.mean` on a nonempty list. -/
def list_mean (xs : List ℚ) : ℚ :=
  xs.sum / (xs.length : ℚ)

/-- Embeds `DataQualityMetrics._get_default_validations`: numeric columns
get a non-negativity rule, object columns a non-empty-string rule (pandas
`.str.len() > 0` is false on NaN and on non-string values). -/
def default_validations (df : DataFrame) : List ValidationRule :=
  (df.numericCols.map (fun c =>
    (c.name ++ "_no_negatives", fun x =>
      (getCol x c.name).map (fun col =>
        ((col.cells.filter (fun cell =>
          match cell with | Cell.num v => decide (0 ≤ v) | _ => false)).length
          : ℚ)))))
  ++ (df.objectCols.map (fun c =>
    (c.name ++ "_not_empty", fun x =>
      (getCol x c.name).map (fun col =>
        ((col.cells.filter (fun cell =>
          match cell with | Cell.text s => decide (0 < s.length) | _ => false)).length
          : ℚ)))))

/-- Embeds the `for rule_name, rule_func in validation_rules.items()` loop of
`calculate_validity`: the first component collects `valid_counts` (the pass
percentages of the rules that did not raise), the second collects
`rule_results` (every rule's rounded percentage, 0 for a raising rule). -/
def validity_loop (df : DataFrame) :
    List ValidationRule → List ℚ × List (String × ℚ)
  | [] => ([], [])
  | r :: rest =>
      match r.2 df with
      | some cnt =>
          let pct := cnt / (df.nrows : ℚ) * 100
          let p := validity_loop df rest
          (pct :: p.1, (r.1, round2 pct) :: p.2)
      | none =>
          let p := validity_loop df rest
          (p.1, (r.1, 0) :: p.2)

/-- Result of `calculate_validity`. -/
structure ValidityResult where
  overall : ℚ
  by_rule : List (String × ℚ)
deriving DecidableEq

/-- Embeds `DataQualityMetrics.calculate_validity`.  An empty rule mapping is
falsy in Python, so default rules are synthesized in that case. -/
def calculate_validity (df : DataFrame)
    (validation_rules : List ValidationRule) : ValidityResult :=
  let rules :=
    if validation_rules.isEmpty then default_validations df
    else validation_rules
  let p := validity_loop df rules
  { overall := round2 (if p.1.isEmpty then 0 else list_mean p.1),
    by_rule := p.2 }

/-- The overall validity the claim describes: the unweighted mean over ALL
rules, with a raising rule contributing 0 to the mean. -/
def claimed_overall_raising_scores_zero (df : DataFrame)
    (rules : List ValidationRule) : ℚ :=
  round2 (list_mean (rules.map (fun r =>
    match r.2 df with
    | some cnt => cnt / (df.nrows : ℚ) * 100
    | none => 0)))

/-- Embeds the metrics mapping consumed by `calculate_quality_score`,
keeping the four `['overall']` entries the function reads. -/
structure MetricsOveralls where
  completeness : ℚ
  uniqueness : ℚ
  validity : ℚ
  consistency : ℚ

/-- Embeds `DataQualityMetrics.calculate_quality_score`: the fixed weighted
sum of the four dimension scores, rounded to 2 decimals. -/
def calculate_quality_score (metrics : MetricsOveralls) : ℚ :=
  round2 (metrics.completeness * 0.30 + metrics.uniqueness * 0.25 +
    metrics.validity * 0.25 + metrics.consistency * 0.20)

/-- A dataframe with one numeric column and zero rows. -/
def emptyDF : DataFrame := ⟨0, [⟨"a", DType.numeric, []⟩]⟩

/-- A dataframe with one numeric column holding the single value 1. -/
def dfOneRow : DataFrame := ⟨1, [⟨"a", DType.numeric, [Cell.num 1]⟩]⟩

/-- Rules used to refute C4: one rule passes on the single row, the other
raises. -/
def cexRules : List ValidationRule :=
  [("ok", fun _ => some 1), ("boom", fun _ => none)]

/-- C3 counterexample: on a dataset with zero rows, `calculate_completeness`
does not raise `EmptyDatasetError`; it returns normally, with the NaN
quotient as overall value. -/
theorem C3_counterexample :
    emptyDF.nrows = 0 ∧
    calculate_completeness emptyDF ≠ Except.error DQError.emptyDatasetError ∧
    calculate_completeness emptyDF = Except.ok ⟨none, [("a", none)]⟩ := by
  refine ⟨rfl, ?_, rfl⟩
  intro h
  exact Except.noConfusion h

/-- C3 (amended): on every dataset with zero rows `calculate_completeness`
returns normally — no `EmptyDatasetError` exists in the source — and its
overall completeness is the non-numeric NaN result of the 0/0 division. -/
theorem C3_zero_rows_returns_nan (df : DataFrame) (h : df.nrows = 0) :
    ∃ r, calculate_completeness df = Except.ok r ∧ r.overall = none := by
  simp only [calculate_completeness, h, Nat.zero_mul, if_pos rfl]
  exact ⟨_, rfl, rfl⟩

/-- Witness for the amended C3 at the concrete zero-row dataframe. -/
theorem C3_witness :
    ∃ r, calculate_completeness emptyDF = Except.ok r ∧ r.overall = none :=
  C3_zero_rows_returns_nan emptyDF rfl

/-- The loop of `calculate_validity` computed in closed form: `valid_counts`
holds the percentages of the non-raising rules, `rule_results` an entry for
every rule, raising rules scored 0. -/
theorem validity_loop_spec (df : DataFrame) (rules : List ValidationRule) :
    validity_loop df rules =
      (rules.filterMap (fun r =>
        (r.2 df).map (fun cnt => cnt / (df.nrows : ℚ) * 100)),
       rules.map (fun r =>
        (r.1,
          match r.2 df with
          | some cnt => round2 (cnt / (df.nrows : ℚ) * 100)
          | none => 0))) := by
  induction rules with
  | nil => rfl
  | cons r rest ih =>
      cases hr : r.2 df with
      | some cnt => simp [validity_loop, hr, ih]
      | none => simp [validity_loop, hr, ih]

/-- C4 counterexample: with one passing rule (100%) and one raising rule,
the code returns overall validity 100, not the mean 50 that counting the
raising rule as 0 would give. -/
theorem C4_counterexample :
    (calculate_validity dfOneRow cexRules).overall = 100 ∧
    claimed_overall_raising_scores_zero dfOneRow cexRules = 50 ∧
    (100 : ℚ) ≠ 50 := by
  refine ⟨?_, ?_, by norm_num⟩
  · simp only [calculate_validity, cexRules, validity_loop, dfOneRow,
      list_mean]
    norm_num [round2, round_eq]
  · simp only [claimed_overall_raising_scores_zero, cexRules, dfOneRow,
      list_mean, List.map]
    norm_num [round2, round_eq]

/-- C4 (amended): for every non-empty dataset and non-empty rule set, every
rule is evaluated; a raising rule is caught, scores 0 in the per-rule
results and is never propagated; and the overall validity is the unweighted
mean of the pass percentages of the non-raising rules only (raising rules
are excluded from that mean; the overall is 0 when every rule raises). -/
theorem C4_validity_rule_isolation (df : DataFrame)
    (rules : List ValidationRule) (hne : rules ≠ [])
    (hrows : 0 < df.nrows) :
    (calculate_validity df rules).by_rule
      = rules.map (fun r =>
          (r.1,
            match r.2 df with
            | some cnt => round2 (cnt / (df.nrows : ℚ) * 100)
            | none => 0))
    ∧ (calculate_validity df rules).overall
      = round2
          (if (rules.filterMap (fun r =>
              (r.2 df).map (fun cnt => cnt / (df.nrows : ℚ) * 100))).isEmpty
           then 0
           else list_mean (rules.filterMap (fun r =>
              (r.2 df).map (fun cnt => cnt / (df.nrows : ℚ) * 100)))) := by
  obtain ⟨r, rest, rfl⟩ : ∃ a l, rules = a :: l := by
    cases rules with
    | nil => exact absurd rfl hne
    | cons a l => exact ⟨a, l, rfl⟩
  simp only [calculate_validity, List.isEmpty_cons, Bool.false_eq_true,
    if_false]
  rw [validity_loop_spec]
  exact ⟨rfl, rfl⟩

/-- Witness for the amended C4 at the concrete one-row dataframe and the
two concrete rules. -/
theorem C4_witness :
    (calculate_validity dfOneRow cexRules).by_rule
      = cexRules.map (fun r =>
          (r.1,
            match r.2 dfOneRow with
            | some cnt => round2 (cnt / (dfOneRow.nrows : ℚ) * 100)
            | none => 0))
    ∧ (calculate_validity dfOneRow cexRules).overall
      = round2
          (if (cexRules.filterMap (fun r =>
              (r.2 dfOneRow).map (fun cnt =>
                cnt / (dfOneRow.nrows : ℚ) * 100))).isEmpty
           then 0
           else list_mean (cexRules.filterMap (fun r =>
              (r.2 dfOneRow).map (fun cnt =>
                cnt / (dfOneRow.nrows : ℚ) * 100)))) :=
  C4_validity_rule_isolation dfOneRow cexRules (by simp [cexRules])
    (by norm_num [dfOneRow])

/-- C7: `calculate_quality_score` returns exactly
`0.30·completeness + 0.25·uniqueness + 0.25·validity + 0.20·consistency`,
rounded to 2 decimals; the weights are fixed in the function body, not
parameters. -/
theorem C7_quality_score_weighted_sum (c u v co : ℚ) :
    calculate_quality_score ⟨c, u, v, co⟩
      = round2 ((30 / 100) * c + (25 / 100) * u + (25 / 100) * v
          + (20 / 100) * co) := by
  unfold calculate_quality_score
  congr 1
  norm_num
  ring

/-! ## Anomaly detector (`src/core/detector_anomalias.py`)

Float comparisons are embedded as exact rational comparisons.  Comparisons
against `|value − mean| / std` are stated in squared, division-free form so
the embedding stays inside `ℚ` (the standard deviation itself is an
irrational square root): for a nonnegative threshold `t` and `std > 0`,
`|v − μ| / std > t  ↔  (v − μ)² > t² · var`. -/

/-- Flags of one numeric column in `detect_zscore`: the row indices of the
non-null values whose squared deviation exceeds `threshold² · variance`
(the squared form of `|z| > threshold`). -/
def zscore_col_flags (c : Column) (threshold : ℚ) : Finset ℕ :=
  ((c.numValsIdx.filter
    (fun p => decide (threshold ^ 2 * c.sampleVar < (p.2 - c.mean) ^ 2))).map
      Prod.fst).toFinset

/-- Embeds `DetectorAnomalias.detect_zscore`: per numeric column, skip it
when its standard deviation is zero, otherwise flag the rows with
`|z-score| > threshold`; union across columns.  (For a column with fewer
than two values pandas yields a NaN standard deviation and flags nothing;
`sampleVar` models this as 0, i.e. as a skip, with the same output.) -/
def detect_zscore (df : DataFrame) (threshold : ℚ) : Finset ℕ :=
  df.numericCols.foldl
    (fun acc c =>
      if c.sampleVar = 0 then acc else acc ∪ zscore_col_flags c threshold) ∅

/-- Embeds `series.quantile(q)` with pandas' default linear interpolation on
the sorted non-null values. -/
def quantile (xs : List ℚ) (q : ℚ) : ℚ :=
  let s := List.insertionSort (· ≤ ·) xs
  if s.length = 0 then 0
  else
    let h : ℚ := ((s.length : ℚ) - 1) * q
    let i : ℕ := (Int.floor h).toNat
    let lo := s.getD i 0
    let hi := s.getD (i + 1) lo
    lo + (h - (i : ℚ)) * (hi - lo)

/-- Flags of one numeric column in `detect_iqr`: rows whose value lies
outside `[Q1 − multiplier·IQR, Q3 + multiplier·IQR]`. -/
def iqr_col_flags (c : Column) (multiplier : ℚ) : Finset ℕ :=
  let q1 := quantile c.numVals (1 / 4)
  let q3 := quantile c.numVals (3 / 4)
  let lower := q1 - multiplier * (q3 - q1)
  let upper := q3 + multiplier * (q3 - q1)
  ((c.numValsIdx.filter
    (fun p => decide (p.2 < lower) || decide (upper < p.2))).map
      Prod.fst).toFinset

/-- Embeds `DetectorAnomalias.detect_iqr`: union of the per-column IQR
flags over the numeric columns. -/
def detect_iqr (df : DataFrame) (multiplier : ℚ) : Finset ℕ :=
  df.numericCols.foldl (fun acc c => acc ∪ iqr_col_flags c multiplier) ∅

/-- The float literal `1e-10` of `_calculate_severity`. -/
def epsQ : ℚ := 1 / 10 ^ 10

/-- The per-column condition of `_calculate_severity`,
`abs((v − mean) / (std + 1e-10)) > 3`, in division- and square-root-free
form: with `σ = √var ≥ 0`, `|v − μ| / (σ + ε) > 3 ↔ |v − μ| − 3ε > 3σ
↔ |v − μ| − 3ε > 0 ∧ (|v − μ| − 3ε)² > 9 var`. -/
def affected_cond (v mu varv : ℚ) : Bool :=
  decide (3 * epsQ < |v - mu|) && decide (9 * varv < (|v - mu| - 3 * epsQ) ^ 2)

/-- The `affected_cols` count of `_calculate_severity` for one row: the
number of numeric columns whose value in that row satisfies
`affected_cond` (a null cell is NaN there and never counts). -/
def count_affected (df : DataFrame) (idx : ℕ) : ℕ :=
  (df.numericCols.filter (fun c =>
    match c.cells.getD idx Cell.null with
    | Cell.num v => affected_cond v c.mean c.sampleVar
    | _ => false)).length

/-- Severity classes of `_calculate_severity`. -/
inductive Sev
  | low
  | medium
  | high
deriving DecidableEq

/-- The classification chain of `_calculate_severity` for one row:
`high` when `affected_cols >= len(numeric_cols) * 0.5`, `medium` when
`>= len(numeric_cols) * 0.2`, else `low`. -/
def classify_row (df : DataFrame) (idx : ℕ) : Sev :=
  if (df.numericCols.length : ℚ) * 0.5 ≤ (count_affected df idx : ℚ) then
    Sev.high
  else if (df.numericCols.length : ℚ) * 0.2 ≤ (count_affected df idx : ℚ) then
    Sev.medium
  else Sev.low

/-- The classification the claim describes, by affected-column fraction,
with the zero-numeric-columns case made explicit. -/
def spec_severity (df : DataFrame) (idx : ℕ) : Sev :=
  if df.numericCols.length = 0 then Sev.high
  else if 1 / 2 ≤ (count_affected df idx : ℚ) / (df.numericCols.length : ℚ)
    then Sev.high
  else if 1 / 5 ≤ (count_affected df idx : ℚ) / (df.numericCols.length : ℚ)
    then Sev.medium
  else Sev.low

/-- The `severity` counter dictionary of `_calculate_severity`. -/
structure SeverityDist where
  low : ℕ
  medium : ℕ
  high : ℕ
deriving DecidableEq

/-- The `for idx in anomaly_indices` loop of `_calculate_severity`,
incrementing one counter per row. -/
def severity_fold (df : DataFrame) : List ℕ → SeverityDist → SeverityDist
  | [], acc => acc
  | idx :: rest, acc =>
      severity_fold df rest
        (match classify_row df idx with
         | Sev.high => { acc with high := acc.high + 1 }
         | Sev.medium => { acc with medium := acc.medium + 1 }
         | Sev.low => { acc with low := acc.low + 1 })

/-- Embeds `DetectorAnomalias._calculate_severity`.  The Python `for` runs
over a `set`; the counts are iteration-order independent, embedded by
iterating over the sorted elements. -/
def calculate_severity (df : DataFrame) (anomaly_indices : Finset ℕ) :
    SeverityDist :=
  if anomaly_indices = ∅ then ⟨0, 0, 0⟩
  else severity_fold df (anomaly_indices.sort (· ≤ ·)) ⟨0, 0, 0⟩

/-- Lookup in an association list, embedding `counter.get(key, d)`. -/
def assoc_getD (l : List (String × ℕ)) (k : String) (d : ℕ) : ℕ :=
  match l.find? (fun p => decide (p.1 = k)) with
  | some p => p.2
  | none => d

/-- Insert-or-update in an association list, embedding Python dict
assignment `d[k] = v` (in-place update of an existing key, append
otherwise). -/
def assoc_set (l : List (String × ℕ)) (k : String) (v : ℕ) :
    List (String × ℕ) :=
  if l.any (fun p => decide (p.1 = k)) then
    l.map (fun p => if p.1 = k then (k, v) else p)
  else l ++ [(k, v)]

/-- Embeds `DetectorAnomalias._count_by_column`: for every numeric column,
add the total flagged-row count of the method under the key
`f"{col}_{method}"`. -/
def count_by_column (df : DataFrame) (anomaly_indices : Finset ℕ)
    (counter : List (String × ℕ)) (method : String) : List (String × ℕ) :=
  df.numericCols.foldl
    (fun ctr c =>
      assoc_set ctr (c.name ++ "_" ++ method)
        (assoc_getD ctr (c.name ++ "_" ++ method) 0 + anomaly_indices.card))
    counter

/-- Embeds the `RelatorioAnomalias` dataclass; the `details` dict is
flattened into its two entries `indices_anomalias` and the severity
distribution. -/
structure RelatorioAnomalias where
  timestamp : String
  dataset_name : String
  total_rows : ℕ
  total_anomalies : ℕ
  anomaly_percentage : ℚ
  methods_used : List String
  anomalies_by_method : List (String × ℕ)
  anomalies_by_column : List (String × ℕ)
  indices_anomalias : Finset ℕ
  severity_distribution : SeverityDist

/-- Embeds `DetectorAnomalias.detect_all`.  `isolation_forest` is passed as
a function parameter: the source wraps `sklearn.ensemble.IsolationForest`,
an external ML model outside the embedding, and the invariants proved about
`detect_all` hold for every value of it.  `methods = none` embeds the
Python default `None` (all three methods); `ts` embeds the
`datetime.now().isoformat()` reading. -/
def detect_all (isolation_forest : DataFrame → Finset ℕ) (df : DataFrame)
    (methods : Option (List String)) (ts dataset_name : String) :
    RelatorioAnomalias :=
  let methodsL := methods.getD ["zscore", "iqr", "isolation_forest"]
  let abm1 :=
    if "zscore" ∈ methodsL then assoc_set [] "zscore" (detect_zscore df 3).card
    else []
  let abc1 :=
    if "zscore" ∈ methodsL then
      count_by_column df (detect_zscore df 3) [] "zscore"
    else []
  let all1 :=
    if "zscore" ∈ methodsL then (∅ : Finset ℕ) ∪ detect_zscore df 3 else ∅
  let abm2 :=
    if "iqr" ∈ methodsL then assoc_set abm1 "iqr" (detect_iqr df 1.5).card
    else abm1
  let abc2 :=
    if "iqr" ∈ methodsL then count_by_column df (detect_iqr df 1.5) abc1 "iqr"
    else abc1
  let all2 := if "iqr" ∈ methodsL then all1 ∪ detect_iqr df 1.5 else all1
  let abm3 :=
    if "isolation_forest" ∈ methodsL then
      assoc_set abm2 "isolation_forest" (isolation_forest df).card
    else abm2
  let all3 :=
    if "isolation_forest" ∈ methodsL then all2 ∪ isolation_forest df else all2
  { timestamp := ts
    dataset_name := dataset_name
    total_rows := df.nrows
    total_anomalies := all3.card
    anomaly_percentage := round2 ((all3.card : ℚ) / (df.nrows : ℚ) * 100)
    methods_used := methodsL
    anomalies_by_method := abm3
    anomalies_by_column := abc2
    indices_anomalias := all3
    severity_distribution := calculate_severity df all3 }

/-- The union of the flagged-row sets of exactly the requested methods. -/
def method_union (isolation_forest : DataFrame → Finset ℕ) (df : DataFrame)
    (methods : List String) : Finset ℕ :=
  ((if "zscore" ∈ methods then detect_zscore df 3 else ∅)
    ∪ (if "iqr" ∈ methods then detect_iqr df 1.5 else ∅))
    ∪ (if "isolation_forest" ∈ methods then isolation_forest df else ∅)

/-- A row's affected-column count never exceeds the number of numeric
columns. -/
theorem count_affected_le (df : DataFrame) (idx : ℕ) :
    count_affected df idx ≤ df.numericCols.length :=
  List.length_filter_le _ _

/-- The source's classification chain agrees with the fraction-based
classification, with rows of a zero-numeric-column dataset classified
`high`. -/
theorem classify_row_eq_spec (df : DataFrame) (idx : ℕ) :
    classify_row df idx = spec_severity df idx := by
  unfold classify_row spec_severity
  by_cases hn : df.numericCols.length = 0
  · have ha : count_affected df idx = 0 := by
      have := count_affected_le df idx
      omega
    simp [hn, ha]
  · have hnpos : (0 : ℚ) < (df.numericCols.length : ℚ) := by
      exact_mod_cast Nat.pos_of_ne_zero hn
    have h1 : ((df.numericCols.length : ℚ) * 0.5 ≤ (count_affected df idx : ℚ))
        ↔ 1 / 2 ≤ (count_affected df idx : ℚ) / (df.numericCols.length : ℚ) := by
      rw [le_div_iff₀ hnpos]
      constructor <;> intro h <;> nlinarith
    have h2 : ((df.numericCols.length : ℚ) * 0.2 ≤ (count_affected df idx : ℚ))
        ↔ 1 / 5 ≤ (count_affected df idx : ℚ) / (df.numericCols.length : ℚ) := by
      rw [le_div_iff₀ hnpos]
      constructor <;> intro h <;> nlinarith
    rw [if_neg hn]
    by_cases hhigh :
        1 / 2 ≤ (count_affected df idx : ℚ) / (df.numericCols.length : ℚ)
    · rw [if_pos (h1.mpr hhigh), if_pos hhigh]
    · rw [if_neg (fun hc => hhigh (h1.mp hc)), if_neg hhigh]
      by_cases hmed :
          1 / 5 ≤ (count_affected df idx : ℚ) / (df.numericCols.length : ℚ)
      · rw [if_pos (h2.mpr hmed), if_pos hmed]
      · rw [if_neg (fun hc => hmed (h2.mp hc)), if_neg hmed]

/-- The severity loop computed in closed form: each counter ends at its
start value plus the number of rows classified into it. -/
theorem severity_fold_spec (df : DataFrame) (l : List ℕ) (acc : SeverityDist) :
    severity_fold df l acc =
      ⟨acc.low + (l.filter (fun i => decide (classify_row df i = Sev.low))).length,
       acc.medium + (l.filter (fun i => decide (classify_row df i = Sev.medium))).length,
       acc.high + (l.filter (fun i => decide (classify_row df i = Sev.high))).length⟩ := by
  induction l generalizing acc with
  | nil => simp [severity_fold]
  | cons i rest ih =>
      cases hc : classify_row df i <;>
        simp [severity_fold, hc, ih, List.filter, SeverityDist.mk.injEq] <;>
        omega

/-- Counting over the sorted list of a finset equals the cardinality of the
corresponding filter. -/
theorem length_sort_filter_classify (df : DataFrame) (idxs : Finset ℕ)
    (s : Sev) :
    ((idxs.sort (· ≤ ·)).filter
      (fun i => decide (classify_row df i = s))).length
      = (idxs.filter (fun i => spec_severity df i = s)).card := by
  have hnd : ((idxs.sort (· ≤ ·)).filter
      (fun i => decide (classify_row df i = s))).Nodup :=
    (Finset.sort_nodup _ _).filter _
  rw [← List.toFinset_card_of_nodup hnd, List.toFinset_filter,
    Finset.sort_toFinset]
  congr 1
  apply Finset.filter_congr
  intro i _
  simp [classify_row_eq_spec]

/-- C5 (amended): the severity distribution counts each anomalous row by the
fraction of numeric columns whose |z-score| for that row exceeds 3 (with the
source's `1e-10` guard): `high` when the fraction is at least 0.5, `medium`
when at least 0.2, otherwise `low` — except that a row of a dataset with
zero numeric columns is classified `high`, since the source compares
`affected_cols >= 0` there. -/
theorem C5_severity_distribution (df : DataFrame) (idxs : Finset ℕ) :
    calculate_severity df idxs =
      ⟨(idxs.filter (fun i => spec_severity df i = Sev.low)).card,
       (idxs.filter (fun i => spec_severity df i = Sev.medium)).card,
       (idxs.filter (fun i => spec_severity df i = Sev.high)).card⟩ := by
  unfold calculate_severity
  by_cases he : idxs = ∅
  · simp [he]
  · rw [if_neg he, severity_fold_spec]
    simp [SeverityDist.mk.injEq, length_sort_filter_classify]

/-- A one-row dataframe with a single text column and no numeric columns. -/
def dfNoNum : DataFrame := ⟨1, [⟨"t", DType.object, [Cell.text "a"]⟩]⟩

/-- C5 counterexample: in a dataset with zero numeric columns, an anomalous
row is classified `high` (the code compares `0 >= 0·0.5`), not `low` as the
claim states. -/
theorem C5_counterexample :
    (calculate_severity dfNoNum {0}).low = 0 ∧
    (calculate_severity dfNoNum {0}).high = 1 := by
  have hnum : dfNoNum.numericCols = [] := rfl
  have hcnt : count_affected dfNoNum 0 = 0 := rfl
  have hcls : classify_row dfNoNum 0 = Sev.high := by
    unfold classify_row
    rw [hnum, hcnt]
    norm_num
  unfold calculate_severity
  rw [if_neg (by simp), Finset.sort_singleton]
  simp [severity_fold, hcls]

/-- The sample variance of a column is nonnegative. -/
theorem sampleVar_nonneg (c : Column) : 0 ≤ c.sampleVar := by
  simp only [Column.sampleVar]
  split
  · exact le_refl 0
  · next h =>
      apply div_nonneg
      · apply List.sum_nonneg
        intro x hx
        obtain ⟨v, hv, rfl⟩ := List.mem_map.mp hx
        positivity
      · have h2 : 2 ≤ c.numVals.length := by omega
        have h2q : (2 : ℚ) ≤ (c.numVals.length : ℚ) := by exact_mod_cast h2
        linarith

/-- Folding a union whose step skips the elements satisfying `p` equals
folding the plain union over the list with those elements filtered out. -/
theorem foldl_union_skip {α : Type} (g : α → Finset ℕ) (p : α → Prop)
    [DecidablePred p] :
    ∀ (l : List α) (acc : Finset ℕ),
      l.foldl (fun acc c => if p c then acc else acc ∪ g c) acc
        = (l.filter (fun c => decide (¬ p c))).foldl
            (fun acc c => acc ∪ g c) acc
  | [], _ => rfl
  | c :: l, acc => by
      by_cases hp : p c
      · have hd : decide (¬ p c) = false := by simp [hp]
        simp only [List.foldl_cons, if_pos hp, List.filter_cons, hd,
          Bool.false_eq_true, if_false]
        exact foldl_union_skip g p l acc
      · have hd : decide (¬ p c) = true := by simp [hp]
        simp only [List.foldl_cons, if_neg hp, List.filter_cons, hd,
          if_true]
        exact foldl_union_skip g p l (acc ∪ g c)

/-- Membership in a column's z-score flags, phrased with the z-score
quotient: meaningful exactly when the column's variance is nonzero. -/
theorem zscore_col_flags_mem (c : Column) (threshold : ℚ)
    (hv : c.sampleVar ≠ 0) (i : ℕ) :
    i ∈ zscore_col_flags c threshold ↔
      ∃ v, (i, v) ∈ c.numValsIdx ∧
        threshold ^ 2 < (v - c.mean) ^ 2 / c.sampleVar := by
  have hpos : 0 < c.sampleVar := lt_of_le_of_ne (sampleVar_nonneg c) (Ne.symm hv)
  unfold zscore_col_flags
  rw [List.mem_toFinset]
  constructor
  · intro h
    obtain ⟨q, hq, rfl⟩ := List.mem_map.mp h
    obtain ⟨hmem, hcond⟩ := List.mem_filter.mp hq
    refine ⟨q.2, hmem, ?_⟩
    rw [lt_div_iff₀ hpos]
    exact of_decide_eq_true hcond
  · rintro ⟨v, hmem, hgt⟩
    apply List.mem_map.mpr
    refine ⟨(i, v), List.mem_filter.mpr ⟨hmem, ?_⟩, rfl⟩
    exact decide_eq_true ((lt_div_iff₀ hpos).mp hgt)

/-- C8: `detect_zscore` equals the plain union of per-column flags over only
the numeric columns with nonzero variance — a zero-variance column is
skipped and contributes nothing — and on every retained column membership is
exactly the squared z-score quotient exceeding the squared threshold, a
quotient whose divisor is nonzero there. -/
theorem C8_zscore_skips_zero_variance (df : DataFrame) (threshold : ℚ) :
    detect_zscore df threshold
      = (df.numericCols.filter (fun c => decide (¬ c.sampleVar = 0))).foldl
          (fun acc c => acc ∪ zscore_col_flags c threshold) ∅
    ∧ ∀ c ∈ df.numericCols, c.sampleVar ≠ 0 →
        ∀ i, (i ∈ zscore_col_flags c threshold ↔
          ∃ v, (i, v) ∈ c.numValsIdx ∧
            threshold ^ 2 < (v - c.mean) ^ 2 / c.sampleVar) := by
  refine ⟨?_, ?_⟩
  · unfold detect_zscore
    exact foldl_union_skip _ _ df.numericCols ∅
  · intro c _ hv i
    exact zscore_col_flags_mem c threshold hv i

/-- Witness for C8 at a concrete dataframe. -/
theorem C8_witness :
    detect_zscore dfOneRow 3
      = (dfOneRow.numericCols.filter (fun c => decide (¬ c.sampleVar = 0))).foldl
          (fun acc c => acc ∪ zscore_col_flags c 3) ∅ :=
  (C8_zscore_skips_zero_variance dfOneRow 3).1

/-- C6: `detect_all` reports `total_anomalies` as the cardinality of the
union of the requested methods' flagged-row sets (a row flagged by several
methods counted once); `anomaly_percentage` as that count over the row count
times 100, rounded to 2 decimals; and `anomalies_by_method` holds each
requested method's own flagged-row count, counted independently of the
union. -/
theorem C6_detect_all_invariants (isoF : DataFrame → Finset ℕ)
    (df : DataFrame) (methods : List String) (ts name : String)
    (hrows : 0 < df.nrows) :
    (detect_all isoF df (some methods) ts name).total_anomalies
        = (method_union isoF df methods).card
    ∧ (detect_all isoF df (some methods) ts name).anomaly_percentage
        = round2
            (((detect_all isoF df (some methods) ts name).total_anomalies : ℚ)
              / (df.nrows : ℚ) * 100)
    ∧ ("zscore" ∈ methods →
        assoc_getD (detect_all isoF df (some methods) ts name).anomalies_by_method
            "zscore" 0
          = (detect_zscore df 3).card)
    ∧ ("iqr" ∈ methods →
        assoc_getD (detect_all isoF df (some methods) ts name).anomalies_by_method
            "iqr" 0
          = (detect_iqr df 1.5).card)
    ∧ ("isolation_forest" ∈ methods →
        assoc_getD (detect_all isoF df (some methods) ts name).anomalies_by_method
            "isolation_forest" 0
          = (isoF df).card) := by
  by_cases hz : "zscore" ∈ methods <;>
    by_cases hi : "iqr" ∈ methods <;>
      by_cases hf : "isolation_forest" ∈ methods <;>
        simp [detect_all, method_union, hz, hi, hf, assoc_set, assoc_getD,
          List.any, List.find?]

/-- A stand-in isolation-forest detector flagging row 0 of every
dataframe, used as concrete witness input. -/
def isoFW : DataFrame → Finset ℕ := fun _ => {0}

/-- Witness for C6 at a concrete detector, dataframe and method list. -/
theorem C6_witness :
    (detect_all isoFW dfOneRow (some ["zscore"]) "t" "d").total_anomalies
        = (method_union isoFW dfOneRow ["zscore"]).card
    ∧ assoc_getD
        (detect_all isoFW dfOneRow (some ["zscore"]) "t" "d").anomalies_by_method
        "zscore" 0
      = (detect_zscore dfOneRow 3).card := by
  have h := C6_detect_all_invariants isoFW dfOneRow ["zscore"] "t" "d"
    (by norm_num [dfOneRow])
  exact ⟨h.1, h.2.2.1 (by simp)⟩

end Monitoramento
